import Mathlib

/-!
Verification of the emmy pseudonym-system server handlers
(`PseudonymsysGenerateNym`, `PseudonymsysIssueCredential`,
`PseudonymsysTransferCredential`) against their specification.

The handlers themselves are embedded from the Go source.  The cryptographic
role objects of the `pseudonymsys` library (`OrgNymGen`, `OrgCredentialIssuer`,
`OrgCredentialVerifier`) and the configuration loaders are not part of the
source tree; they are modelled from the spec (§4.2, §4.3, §4.1), as marked in
their doc comments.  Big integers are `Nat`; byte strings on the wire are
`List Nat` (big-endian digits base 256).
-/

/-- Embedding of Go `math/big` `Int.SetBytes`: interpret a byte slice as the
big-endian digits of a non-negative integer (the empty slice yields 0). -/
def setBytes (b : List Nat) : Nat :=
  b.foldl (fun acc d => acc * 256 + d) 0

/-- Fuel-driven little-endian base-256 digit expansion; the fuel only bounds
the recursion depth and is irrelevant as long as it is at least the number. -/
def natBytesLEAux : Nat → Nat → List Nat
  | _, 0 => []
  | 0, _ + 1 => []
  | fuel + 1, n + 1 => ((n + 1) % 256) :: natBytesLEAux fuel ((n + 1) / 256)

/-- Embedding of Go `math/big` `Int.Bytes`: the minimal big-endian byte
representation of a non-negative integer (0 yields the empty slice). -/
def bytes (n : Nat) : List Nat :=
  (natBytesLEAux n n).reverse

/-- Embedding of Go `math/big` `Int.Exp` with a modulus: `a ^ e % m`. -/
def powMod (a e m : Nat) : Nat :=
  a ^ e % m

/-- Group parameters as loaded by `config.LoadDLog`: a prime-order subgroup
description `(p, g, q)`. -/
structure DLog where
  p : Nat
  g : Nat
  q : Nat
deriving DecidableEq

/-- Modelled from the spec: §4.2.2, the two-exponent Schnorr acceptance test.
With bases `(g1, g2)`, claimed values `(y1, y2)`, prover commitments
`(x1, x2)` and challenge `c`, accept the response `z` iff
`g1^z ≡ x1 · y1^c` and `g2^z ≡ x2 · y2^c`, both mod `p`. -/
def twoExpCheck (p g1 g2 y1 y2 x1 x2 c z : Nat) : Bool :=
  (powMod g1 z p == (x1 * powMod y1 c p) % p) &&
  (powMod g2 z p == (x2 * powMod y2 c p) % p)

/-- A parsed DL-EQ transcript `(A, B, Hash, z_alpha)`. -/
structure DLEQTranscript where
  bigA : Nat
  bigB : Nat
  hash : Nat
  zAlpha : Nat
deriving DecidableEq

/-- Modelled from the spec: §4.2.3, non-interactive DL-EQ transcript
verification for `log_g1 y1 = log_g2 y2`: recompute the challenge as
`H(g1, y1, g2, y2, A, B)` (the hash `H` is kept abstract), require it to
match the transcript, and check `g1^{z_alpha} ≡ A · y1^{Hash}` and
`g2^{z_alpha} ≡ B · y2^{Hash}` (mod `p`). -/
def dleqVerify (H : List Nat → Nat) (p g1 y1 g2 y2 : Nat) (t : DLEQTranscript) : Bool :=
  (t.hash == H [g1, y1, g2, y2, t.bigA, t.bigB]) &&
  (powMod g1 t.zAlpha p == (t.bigA * powMod y1 t.hash p) % p) &&
  (powMod g2 t.zAlpha p == (t.bigB * powMod y2 t.hash p) % p)

/-- Session state of the `OrgNymGen` role: the stored base pairs
`(g1, y1) = (nymA, nymB)`, `(g2, y2) = (blindedA, blindedB)`, the prover
commitments `(x1, x2)` and the stored challenge. -/
structure NymGenSession where
  nymA : Nat
  nymB : Nat
  blindedA : Nat
  blindedB : Nat
  x1 : Nat
  x2 : Nat
  challenge : Nat
deriving DecidableEq

/-- Modelled from the spec: §4.3.1 `GetChallenge` of the pseudonymsys
`OrgNymGen` role (its implementation is not under src/).  Step 1 verifies the
Schnorr signature of the CA over the nym pair against the CA public key via the
abstract predicate `sigOk`; on failure the call fails with
INVALID_CA_SIGNATURE and stores nothing.  Otherwise steps 2-4 store the base
pairs, the prover commitments and the freshly sampled challenge `c`. -/
def nymGenGetChallenge (sigOk : Nat → Nat → Nat → Nat → Nat → Nat → Bool)
    (caX caY nymA blindedA nymB blindedB x1 x2 sigR sigS c : Nat) :
    Except String NymGenSession :=
  if sigOk caX caY nymA nymB sigR sigS then
    .ok ⟨nymA, nymB, blindedA, blindedB, x1, x2, c⟩
  else
    .error ("INVALID_CA_SIGNATURE")

/-- Modelled from the spec: §4.3.1 `Verify(z)` runs the two-exponent check of
§4.2.2 on the stored session state. -/
def nymGenVerify (p : Nat) (st : NymGenSession) (z : Nat) : Bool :=
  twoExpCheck p st.nymA st.blindedA st.nymB st.blindedB st.x1 st.x2 st.challenge z

/-- Session state of the `OrgCredentialIssuer` role: the authenticated nym
data `(a, b, x)` and challenge from round 1, and the DL-EQ nonces
`(gamma1, gamma2)` stored in round 2 (0 until then). -/
structure IssuerSession where
  a : Nat
  b : Nat
  x : Nat
  challenge : Nat
  gamma1 : Nat
  gamma2 : Nat
deriving DecidableEq

/-- Modelled from the spec: §4.3.2 R1, `GetAuthenticationChallenge` of the
`OrgCredentialIssuer` role: store `(a, b, x)` and the sampled challenge `c`,
return the challenge. -/
def issuerGetAuthenticationChallenge (a b x c : Nat) : Nat × IssuerSession :=
  (c, ⟨a, b, x, c, 0, 0⟩)

/-- The six values returned by the issuer in round 2. -/
structure IssueProofData where
  x11 : Nat
  x12 : Nat
  x21 : Nat
  x22 : Nat
  bigA : Nat
  bigB : Nat
deriving DecidableEq

/-- Modelled from the spec: §4.3.2, `VerifyAuthentication` of the
`OrgCredentialIssuer` role.  R1 check: `a^z ≡ x · b^c (mod p)`; on failure,
fail with AUTH_FAILED and store nothing.  On success, R2: with the sampled
nonces `r1, gamma1, gamma2 ∈ Z_q` and `(h1, h2) = (g^{s1}, g^{s2})`, compute
the DL-EQ first moves `(x11, x12, x21, x22) = (g^{gamma1}, h1^{gamma1},
g^{gamma2}, h2^{gamma2})` and the issued pair
`(A, B) = (a^{s2} · g^{r1}, b^{s2} · h1^{r1})` (mod `p`), store the nonces
`gamma1, gamma2`, and return the six values.  (The second spec nonce `r2`
only enters the second issued pair, which never leaves the role.) -/
def issuerVerifyAuthentication (dl : DLog) (s1 s2 r1 gamma1 gamma2 : Nat)
    (st : IssuerSession) (z : Nat) :
    Except String IssueProofData × IssuerSession :=
  if powMod st.a z dl.p == (st.x * powMod st.b st.challenge dl.p) % dl.p then
    let h1 := powMod dl.g s1 dl.p
    let h2 := powMod dl.g s2 dl.p
    (.ok ⟨powMod dl.g gamma1 dl.p, powMod h1 gamma1 dl.p,
          powMod dl.g gamma2 dl.p, powMod h2 gamma2 dl.p,
          (powMod st.a s2 dl.p * powMod dl.g r1 dl.p) % dl.p,
          (powMod st.b s2 dl.p * powMod h1 r1 dl.p) % dl.p⟩,
     { st with gamma1 := gamma1, gamma2 := gamma2 })
  else
    (.error ("AUTH_FAILED"), st)

/-- Modelled from the spec: §4.3.2 R3, `GetEqualityProofData` of the
`OrgCredentialIssuer` role: on challenges `(c1, c2)` respond with
`(z1, z2) = (gamma1 + c1·s1 mod q, gamma2 + c2·s2 mod q)` for the stored
nonces. -/
def issuerGetEqualityProofData (q s1 s2 : Nat) (st : IssuerSession) (c1 c2 : Nat) :
    Nat × Nat :=
  ((st.gamma1 + c1 * s1) % q, (st.gamma2 + c2 * s2) % q)

/-- A parsed credential: the four randomized group elements and the two
DL-EQ transcripts. -/
structure Credential where
  smallAToGamma : Nat
  smallBToGamma : Nat
  aToGamma : Nat
  bToGamma : Nat
  t1 : DLEQTranscript
  t2 : DLEQTranscript
deriving DecidableEq

/-- Session state of the `OrgCredentialVerifier` role: the two-exponent
Schnorr verifier with bases `(g1, g2) = (nymA, a^gamma)`, claimed values
`(y1, y2) = (nymB, b^gamma)`, commitments `(x1, x2)` and the stored
challenge. -/
structure VerifierSession where
  g1 : Nat
  g2 : Nat
  y1 : Nat
  y2 : Nat
  x1 : Nat
  x2 : Nat
  challenge : Nat
deriving DecidableEq

/-- Modelled from the spec: §4.3.3 `GetAuthenticationChallenge` of the
`OrgCredentialVerifier` role: construct a two-exponent Schnorr verifier with
bases `(nymA, a^gamma)` and claimed values `(nymB, b^gamma)`, seed it with
`(x1, x2)`, store and return the sampled challenge `c`. -/
def verifierGetAuthenticationChallenge (nymA nymB aTG bTG x1 x2 c : Nat) :
    Nat × VerifierSession :=
  (c, ⟨nymA, aTG, nymB, bTG, x1, x2, c⟩)

/-- Modelled from the spec: §4.3.3 `VerifyAuthentication` of the
`OrgCredentialVerifier` role: the conjunction of (1) the two-exponent Schnorr
check of §4.2.2 on the stored session state with response `z`, and (2) the
DL-EQ verification of transcript `t1` with bases `(g, h1)` and claims
`(A^gamma, B^gamma)`, and of `t2` with bases `(g, h2)` and claims the
remaining credential pair `(a^gamma, b^gamma)`, against the issuer public
keys `(h1, h2)`. -/
def verifierVerifyAuthentication (H : List Nat → Nat) (dl : DLog)
    (st : VerifierSession) (z : Nat) (cred : Credential) (h1 h2 : Nat) : Bool :=
  twoExpCheck dl.p st.g1 st.g2 st.y1 st.y2 st.x1 st.x2 st.challenge z &&
  dleqVerify H dl.p dl.g cred.aToGamma h1 cred.bToGamma cred.t1 &&
  dleqVerify H dl.p dl.g cred.smallAToGamma h2 cred.smallBToGamma cred.t2

/-- The wire credential as carried inside `PseudonymsysTransferCredentialData`
(protobuf `PseudonymsysCredential`): raw byte-string fields. -/
structure PbDLEQTranscript where
  bigA : List Nat
  bigB : List Nat
  hash : List Nat
  zAlpha : List Nat
deriving DecidableEq

structure PbCredential where
  smallAToGamma : List Nat
  smallBToGamma : List Nat
  aToGamma : List Nat
  bToGamma : List Nat
  t1 : PbDLEQTranscript
  t2 : PbDLEQTranscript
deriving DecidableEq

/-- The oneof content of a protobuf `Message`, restricted to the variants the
three pseudonymsys handlers exchange. -/
inductive Content where
  | nymGenProofRandomData (x1 a1 b1 x2 a2 b2 r s : List Nat)
  | pedersenDecommitment (x : List Nat)
  | schnorrProofData (z : List Nat)
  | status (success : Bool)
  | schnorrProofRandomData (x a b : List Nat)
  | bigInt (x1 : List Nat)
  | issueProofRandomData (x11 x12 x21 x22 a b : List Nat)
  | doubleBigInt (x1 x2 : List Nat)
  | transferCredentialData (orgName : String) (x1 x2 nymA nymB : List Nat)
      (credential : Option PbCredential)
deriving DecidableEq

/-- A protobuf `Message`: the oneof content plus the nullable
`ProtocolError` string (empty when unset). -/
structure Message where
  content : Content
  protocolError : String := ""
deriving DecidableEq

/-- Go `req.GetPseudonymsysNymGenProofRandomData()`: the payload if the
content is of that variant, otherwise nil. -/
def Message.getNymGenProofRandomData (m : Message) :
    Option (List Nat × List Nat × List Nat × List Nat × List Nat × List Nat ×
      List Nat × List Nat) :=
  match m.content with
  | .nymGenProofRandomData x1 a1 b1 x2 a2 b2 r s => some (x1, a1, b1, x2, a2, b2, r, s)
  | _ => none

/-- Go `req.GetSchnorrProofData()`. -/
def Message.getSchnorrProofData (m : Message) : Option (List Nat) :=
  match m.content with
  | .schnorrProofData z => some z
  | _ => none

/-- Go `req.GetSchnorrProofRandomData()`. -/
def Message.getSchnorrProofRandomData (m : Message) :
    Option (List Nat × List Nat × List Nat) :=
  match m.content with
  | .schnorrProofRandomData x a b => some (x, a, b)
  | _ => none

/-- Go `req.GetBigint()`. -/
def Message.getBigint (m : Message) : Option (List Nat) :=
  match m.content with
  | .bigInt x1 => some x1
  | _ => none

/-- Go `req.GetDoubleBigint()`. -/
def Message.getDoubleBigint (m : Message) : Option (List Nat × List Nat) :=
  match m.content with
  | .doubleBigInt x1 x2 => some (x1, x2)
  | _ => none

/-- Go `req.GetPseudonymsysTransferCredentialData()`. -/
def Message.getTransferCredentialData (m : Message) :
    Option (String × List Nat × List Nat × List Nat × List Nat × Option PbCredential) :=
  match m.content with
  | .transferCredentialData orgName x1 x2 nymA nymB cred =>
      some (orgName, x1, x2, nymA, nymB, cred)
  | _ => none

/-- The configuration store consumed by the handlers (§4.1): the group
parameters, the CA public key, and per-organization secret and public key
pairs, all read-only. -/
structure Config where
  dlog : DLog
  caPubKey : Nat × Nat
  orgSecrets : String → String → Nat × Nat
  orgPubKeys : String → Nat × Nat

/-- The observable outcome of one handler run: the list of messages sent on
the stream, ending normally (`ok`, the handler returns nil), in a nil-pointer
dereference (`crash`, a Go runtime panic from accessing a field of a nil
payload), or in a transport error returned to the RPC layer
(`transportErr`, a failing `receive`). -/
inductive Outcome where
  | ok (sends : List Message)
  | crash (sends : List Message)
  | transportErr (sends : List Message)
deriving DecidableEq

/-- Embedding of the `PseudonymsysGenerateNym` handler
(src/unnamed/part_000, lines 27-83).  `sigOk` abstracts the CA-signature
check inside the role, `c` is the challenge the role samples, and `tape` is
the sequence of messages `receive` yields (an exhausted tape is a failing
`receive`). -/
def pseudonymsysGenerateNym (cfg : Config)
    (sigOk : Nat → Nat → Nat → Nat → Nat → Nat → Bool) (c : Nat)
    (req : Message) (tape : List Message) : Outcome :=
  match req.getNymGenProofRandomData with
  | none => .crash []
  | some (x1b, a1b, b1b, x2b, a2b, b2b, rb, sb) =>
    let x1 := setBytes x1b
    let nymA := setBytes a1b
    let nymB := setBytes b1b
    let x2 := setBytes x2b
    let blindedA := setBytes a2b
    let blindedB := setBytes b2b
    let signatureR := setBytes rb
    let signatureS := setBytes sb
    let gc := nymGenGetChallenge sigOk cfg.caPubKey.1 cfg.caPubKey.2
        nymA blindedA nymB blindedB x1 x2 signatureR signatureS c
    let org : NymGenSession := match gc with
      | .ok st => st
      | .error _ => ⟨0, 0, 0, 0, 0, 0, 0⟩
    let resp : Message := match gc with
      | .ok st => { content := .pedersenDecommitment (bytes st.challenge) }
      | .error e => { content := .pedersenDecommitment [], protocolError := e }
    match tape with
    | [] => .transportErr [resp]
    | req2 :: _ =>
      match req2.getSchnorrProofData with
      | none => .crash [resp]
      | some zb =>
        let z := setBytes zb
        let valid := nymGenVerify cfg.dlog.p org z
        .ok [resp, { content := .status valid }]

/-- Embedding of the `PseudonymsysIssueCredential` handler
(src/unnamed/part_000, lines 85-167).  `c` is the round-1 challenge the role
samples; `r1`, `gamma1`, `gamma2` are the round-2 nonces. -/
def pseudonymsysIssueCredential (cfg : Config) (c r1 gamma1 gamma2 : Nat)
    (req : Message) (tape : List Message) : Outcome :=
  let dl := cfg.dlog
  let s1 := (cfg.orgSecrets ("org1") ("dlog")).1
  let s2 := (cfg.orgSecrets ("org1") ("dlog")).2
  match req.getSchnorrProofRandomData with
  | none => .crash []
  | some (xb, ab, bb) =>
    let x := setBytes xb
    let a := setBytes ab
    let b := setBytes bb
    let r1res := issuerGetAuthenticationChallenge a b x c
    let resp1 : Message := { content := .bigInt (bytes r1res.1) }
    match tape with
    | [] => .transportErr [resp1]
    | req2 :: tape2 =>
      match req2.getBigint with
      | none => .crash [resp1]
      | some zb =>
        let z := setBytes zb
        let r2res := issuerVerifyAuthentication dl s1 s2 r1 gamma1 gamma2 r1res.2 z
        let resp2 : Message := match r2res.1 with
          | .ok d =>
            let body := Content.issueProofRandomData (bytes d.x11) (bytes d.x12)
              (bytes d.x21) (bytes d.x22) (bytes d.bigA) (bytes d.bigB)
            { content := body }
          | .error e =>
            { content := .issueProofRandomData [] [] [] [] [] [], protocolError := e }
        match tape2 with
        | [] => .transportErr [resp1, resp2]
        | req3 :: _ =>
          match req3.getDoubleBigint with
          | none => .crash [resp1, resp2]
          | some (c1b, c2b) =>
            let c1 := setBytes c1b
            let c2 := setBytes c2b
            let zz := issuerGetEqualityProofData dl.q s1 s2 r2res.2 c1 c2
            .ok [resp1, resp2,
                 { content := .doubleBigInt (bytes zz.1) (bytes zz.2) }]

/-- Embedding of the `PseudonymsysTransferCredential` handler
(src/unnamed/part_000, lines 169-239).  `H` abstracts the DL-EQ hash, `c` is
the challenge the role samples.  A missing `Credential` sub-message (or any
variant mismatch) is a nil dereference, hence a crash. -/
def pseudonymsysTransferCredential (cfg : Config) (H : List Nat → Nat) (c : Nat)
    (req : Message) (tape : List Message) : Outcome :=
  let dl := cfg.dlog
  let _secrets := cfg.orgSecrets ("org1") ("dlog")
  match req.getTransferCredentialData with
  | none => .crash []
  | some (orgName, x1b, x2b, nymAb, nymBb, credOpt) =>
    match credOpt with
    | none => .crash []
    | some pc =>
      let x1 := setBytes x1b
      let x2 := setBytes x2b
      let nymA := setBytes nymAb
      let nymB := setBytes nymBb
      let cred : Credential :=
        { smallAToGamma := setBytes pc.smallAToGamma
          smallBToGamma := setBytes pc.smallBToGamma
          aToGamma := setBytes pc.aToGamma
          bToGamma := setBytes pc.bToGamma
          t1 := ⟨setBytes pc.t1.bigA, setBytes pc.t1.bigB,
                 setBytes pc.t1.hash, setBytes pc.t1.zAlpha⟩
          t2 := ⟨setBytes pc.t2.bigA, setBytes pc.t2.bigB,
                 setBytes pc.t2.hash, setBytes pc.t2.zAlpha⟩ }
      let chres := verifierGetAuthenticationChallenge nymA nymB
          cred.smallAToGamma cred.smallBToGamma x1 x2 c
      let resp1 : Message := { content := .bigInt (bytes chres.1) }
      match tape with
      | [] => .transportErr [resp1]
      | req2 :: _ =>
        let h1 := (cfg.orgPubKeys orgName).1
        let h2 := (cfg.orgPubKeys orgName).2
        match req2.getBigint with
        | none => .crash [resp1]
        | some zb =>
          let z := setBytes zb
          let verified := verifierVerifyAuthentication H dl chres.2 z cred h1 h2
          .ok [resp1, { content := .status verified }]

theorem natBytesLEAux_congr :
    ∀ (f₁ : Nat) (n : Nat), n ≤ f₁ → ∀ (f₂ : Nat), n ≤ f₂ →
      natBytesLEAux f₁ n = natBytesLEAux f₂ n := by
  intro f₁
  induction f₁ with
  | zero =>
    intro n hn f₂ _
    interval_cases n
    cases f₂ <;> rfl
  | succ f ih =>
    intro n hn f₂ h₂
    cases n with
    | zero => cases f₂ <;> rfl
    | succ m =>
      cases f₂ with
      | zero => omega
      | succ f₂' =>
        show ((m + 1) % 256) :: natBytesLEAux f ((m + 1) / 256)
            = ((m + 1) % 256) :: natBytesLEAux f₂' ((m + 1) / 256)
        have hd : (m + 1) / 256 ≤ m := by
          have := Nat.div_lt_self (Nat.succ_pos m) (by omega : 1 < 256)
          omega
        rw [ih ((m + 1) / 256) (by omega) f₂' (by omega)]

theorem natBytesLEAux_eq_digits (n : Nat) :
    natBytesLEAux n n = Nat.digits 256 n := by
  induction n using Nat.strong_induction_on with
  | _ n ih =>
    cases n with
    | zero => simp [natBytesLEAux]
    | succ m =>
      have hd : (m + 1) / 256 < m + 1 :=
        Nat.div_lt_self (Nat.succ_pos m) (by omega)
      show ((m + 1) % 256) :: natBytesLEAux m ((m + 1) / 256)
          = Nat.digits 256 (m + 1)
      rw [natBytesLEAux_congr m ((m + 1) / 256) (by omega) ((m + 1) / 256) le_rfl]
      rw [ih ((m + 1) / 256) hd]
      rw [Nat.digits_def' (by omega : 1 < 256) (Nat.succ_pos m)]

theorem bytes_eq_digits_reverse (n : Nat) :
    bytes n = (Nat.digits 256 n).reverse := by
  unfold bytes
  rw [natBytesLEAux_eq_digits]

theorem setBytes_foldl_general (b : List Nat) :
    ∀ a : Nat, b.foldl (fun acc d => acc * 256 + d) a
      = a * 256 ^ b.length + Nat.ofDigits 256 b.reverse := by
  induction b with
  | nil => intro a; simp [Nat.ofDigits_nil]
  | cons d t ih =>
    intro a
    show t.foldl (fun acc d => acc * 256 + d) (a * 256 + d)
      = a * 256 ^ (d :: t).length + Nat.ofDigits 256 (d :: t).reverse
    rw [ih (a * 256 + d)]
    rw [List.reverse_cons, Nat.ofDigits_append]
    have : Nat.ofDigits 256 [d] = d := by
      simp [Nat.ofDigits_cons, Nat.ofDigits_nil]
    rw [this]
    simp [List.length_reverse, pow_succ]
    ring

theorem setBytes_eq_ofDigits (b : List Nat) :
    setBytes b = Nat.ofDigits 256 b.reverse := by
  unfold setBytes
  rw [setBytes_foldl_general b 0]
  simp

theorem setBytes_bytes (n : Nat) : setBytes (bytes n) = n := by
  rw [bytes_eq_digits_reverse, setBytes_eq_ofDigits, List.reverse_reverse]
  exact Nat.ofDigits_digits 256 n

theorem setBytes_cons_zero (t : List Nat) : setBytes (0 :: t) = setBytes t := by
  unfold setBytes
  simp

theorem bytes_setBytes (b : List Nat) (hb : ∀ d ∈ b, d < 256) :
    bytes (setBytes b) = b.dropWhile (· == 0) := by
  induction b with
  | nil =>
    simp [setBytes, bytes, natBytesLEAux, List.dropWhile]
  | cons d t ih =>
    cases d with
    | zero =>
      rw [setBytes_cons_zero]
      rw [ih (fun x hx => hb x (List.mem_cons_of_mem _ hx))]
      simp [List.dropWhile]
    | succ d' =>
      have hcons : List.dropWhile (· == 0) ((d' + 1) :: t) = (d' + 1) :: t := by
        simp [List.dropWhile]
      rw [hcons]
      rw [setBytes_eq_ofDigits, bytes_eq_digits_reverse]
      have hrev : ((d' + 1) :: t).reverse = t.reverse ++ [d' + 1] := by
        simp
      rw [hrev]
      have hlt : ∀ l ∈ t.reverse ++ [d' + 1], l < 256 := by
        intro l hl
        rcases List.mem_append.mp hl with h | h
        · exact hb l (List.mem_cons_of_mem _ (List.mem_reverse.mp h))
        · simp at h
          subst h
          exact hb (d' + 1) (List.mem_cons_self _ _)
      have hlast : ∀ h : t.reverse ++ [d' + 1] ≠ [],
          (t.reverse ++ [d' + 1]).getLast h ≠ 0 := by
        intro h
        rw [List.getLast_append_singleton]
        omega
      rw [Nat.digits_ofDigits 256 (by omega) _ hlt hlast]
      simp

/-- C1: in `PseudonymsysGenerateNym`, when the round-1 `GetChallenge`
succeeds, the final `Status` message has `success` exactly equal to the
two-exponent Schnorr check `g1^z ≡ x1 · y1^c ∧ g2^z ≡ x2 · y2^c (mod p)`
with `(g1, y1) = (nymA, nymB)`, `(g2, y2) = (blindedA, blindedB)`, the stored
prover commitments `(x1, x2)` and the stored challenge `c`, on the received
response `z`. -/
theorem generateNym_final_status_iff_twoExpCheck
    (cfg : Config) (sigOk : Nat → Nat → Nat → Nat → Nat → Nat → Bool) (c : Nat)
    (x1b a1b b1b x2b a2b b2b rb sb zb : List Nat)
    (pe pe' : String) (rest : List Message)
    (hsig : sigOk cfg.caPubKey.1 cfg.caPubKey.2 (setBytes a1b) (setBytes b1b)
        (setBytes rb) (setBytes sb) = true) :
    pseudonymsysGenerateNym cfg sigOk c
        { content := .nymGenProofRandomData x1b a1b b1b x2b a2b b2b rb sb,
          protocolError := pe }
        ({ content := .schnorrProofData zb, protocolError := pe' } :: rest)
      = .ok [{ content := .pedersenDecommitment (bytes c) },
             { content := .status (twoExpCheck cfg.dlog.p (setBytes a1b)
                 (setBytes a2b) (setBytes b1b) (setBytes b2b) (setBytes x1b)
                 (setBytes x2b) c (setBytes zb)) }] := by
  simp [pseudonymsysGenerateNym, Message.getNymGenProofRandomData,
    Message.getSchnorrProofData, nymGenGetChallenge, hsig, nymGenVerify]

theorem generateNym_final_status_iff_twoExpCheck_witness :
    ((fun _ _ _ _ _ _ => true : Nat → Nat → Nat → Nat → Nat → Nat → Bool)
        0 0 2 9 1 1 = true) ∧
    pseudonymsysGenerateNym
        ⟨⟨23, 2, 11⟩, (0, 0), fun _ _ => (3, 6), fun _ => (1, 1)⟩
        (fun _ _ _ _ _ _ => true) 2
        { content := .nymGenProofRandomData [8] [2] [9] [18] [4] [12] [1] [1] }
        [{ content := .schnorrProofData [2] }]
      = .ok [{ content := .pedersenDecommitment [2] },
             { content := .status true }] :=
  ⟨rfl, generateNym_final_status_iff_twoExpCheck _ _ _ _ _ _ _ _ _ _ _ _ _ _ _ rfl⟩

/-- C2: in `PseudonymsysTransferCredential`, the final `Status.success`
equals the conjunction of (a) the two-exponent Schnorr check with the bases
and claimed values fixed by the `GetAuthenticationChallenge` call
(bases `(nymA, a^gamma)`, claims `(nymB, b^gamma)`, commitments `(x1, x2)`,
challenge `c`) on the received `z`, and (b) the DL-EQ verification of both
credential transcripts `t1` and `t2` against the public keys `(h1, h2)`
loaded for the `org_name` named in the request; in particular a credential
whose transcripts do not verify under those keys yields
`Status{success: false}`. -/
theorem transferCredential_status_eq_conjunction
    (cfg : Config) (H : List Nat → Nat) (c : Nat) (orgName : String)
    (x1b x2b nymAb nymBb : List Nat) (pc : PbCredential)
    (zb : List Nat) (pe pe' : String) (rest : List Message) :
    pseudonymsysTransferCredential cfg H c
        { content := .transferCredentialData orgName x1b x2b nymAb nymBb (some pc),
          protocolError := pe }
        ({ content := .bigInt zb, protocolError := pe' } :: rest)
      = .ok [{ content := .bigInt (bytes c) },
             { content := .status (
                 twoExpCheck cfg.dlog.p (setBytes nymAb) (setBytes pc.smallAToGamma)
                   (setBytes nymBb) (setBytes pc.smallBToGamma)
                   (setBytes x1b) (setBytes x2b) c (setBytes zb) &&
                 dleqVerify H cfg.dlog.p cfg.dlog.g (setBytes pc.aToGamma)
                   (cfg.orgPubKeys orgName).1 (setBytes pc.bToGamma)
                   ⟨setBytes pc.t1.bigA, setBytes pc.t1.bigB,
                    setBytes pc.t1.hash, setBytes pc.t1.zAlpha⟩ &&
                 dleqVerify H cfg.dlog.p cfg.dlog.g (setBytes pc.smallAToGamma)
                   (cfg.orgPubKeys orgName).2 (setBytes pc.smallBToGamma)
                   ⟨setBytes pc.t2.bigA, setBytes pc.t2.bigB,
                    setBytes pc.t2.hash, setBytes pc.t2.zAlpha⟩) }] := by
  simp [pseudonymsysTransferCredential, Message.getTransferCredentialData,
    Message.getBigint, verifierGetAuthenticationChallenge,
    verifierVerifyAuthentication]

/-- C3 counterexample: a concrete nymgen session in which `GetChallenge`
fails (CA signature invalid).  The handler sends the expected
`PedersenDecommitment` variant with `protocol_error` set, but that message is
not terminal: the handler still performs the following `receive`, the
`Verify` role call, and sends a further `Status` message — the run ends with
two sent messages, refuting that no further protocol rounds happen. -/
theorem roleError_not_terminal_counterexample :
    pseudonymsysGenerateNym
        ⟨⟨23, 2, 11⟩, (0, 0), fun _ _ => (3, 6), fun _ => (1, 1)⟩
        (fun _ _ _ _ _ _ => false) 2
        { content := .nymGenProofRandomData [8] [2] [9] [18] [4] [12] [1] [1] }
        [{ content := .schnorrProofData [1] }]
      = .ok [{ content := .pedersenDecommitment [],
               protocolError := "INVALID_CA_SIGNATURE" },
             { content := .status true }] ∧
    (("INVALID_CA_SIGNATURE" : String) ≠ "") :=
  ⟨rfl, by decide⟩

/-- C3 amended: on a role error the handler does send a response of the
expected variant with `protocol_error` set and returns no transport error,
but the message is not terminal: the session continues through the remaining
receives, role calls and sends.  For nymgen, a failed `GetChallenge` is
followed by the `z` round running `Verify` on the unseeded session; for
issuance, a failed `VerifyAuthentication` is followed by round 3 running
`GetEqualityProofData` on the unseeded nonces. -/
theorem roleError_message_not_terminal :
    (∀ (cfg : Config) (sigOk : Nat → Nat → Nat → Nat → Nat → Nat → Bool)
       (c : Nat) (x1b a1b b1b x2b a2b b2b rb sb zb : List Nat)
       (pe pe' : String) (rest : List Message),
       sigOk cfg.caPubKey.1 cfg.caPubKey.2 (setBytes a1b) (setBytes b1b)
           (setBytes rb) (setBytes sb) = false →
       pseudonymsysGenerateNym cfg sigOk c
           { content := .nymGenProofRandomData x1b a1b b1b x2b a2b b2b rb sb,
             protocolError := pe }
           ({ content := .schnorrProofData zb, protocolError := pe' } :: rest)
         = .ok [{ content := .pedersenDecommitment [],
                  protocolError := "INVALID_CA_SIGNATURE" },
                { content := .status (nymGenVerify cfg.dlog.p
                    ⟨0, 0, 0, 0, 0, 0, 0⟩ (setBytes zb)) }]) ∧
    (∀ (cfg : Config) (c r1 gamma1 gamma2 : Nat)
       (xb ab bb zb c1b c2b : List Nat) (pe1 pe2 pe3 : String)
       (rest : List Message),
       (powMod (setBytes ab) (setBytes zb) cfg.dlog.p
          == (setBytes xb * powMod (setBytes bb) c cfg.dlog.p) % cfg.dlog.p)
         = false →
       pseudonymsysIssueCredential cfg c r1 gamma1 gamma2
           { content := .schnorrProofRandomData xb ab bb, protocolError := pe1 }
           ({ content := .bigInt zb, protocolError := pe2 } ::
            { content := .doubleBigInt c1b c2b, protocolError := pe3 } :: rest)
         = .ok [{ content := .bigInt (bytes c) },
                { content := .issueProofRandomData [] [] [] [] [] [],
                  protocolError := "AUTH_FAILED" },
                { content := .doubleBigInt
                    (bytes ((0 + setBytes c1b *
                      (cfg.orgSecrets ("org1") ("dlog")).1) % cfg.dlog.q))
                    (bytes ((0 + setBytes c2b *
                      (cfg.orgSecrets ("org1") ("dlog")).2) % cfg.dlog.q)) }]) := by
  constructor
  · intro cfg sigOk c x1b a1b b1b x2b a2b b2b rb sb zb pe pe' rest hsig
    simp [pseudonymsysGenerateNym, Message.getNymGenProofRandomData,
      Message.getSchnorrProofData, nymGenGetChallenge, hsig]
  · intro cfg c r1 gamma1 gamma2 xb ab bb zb c1b c2b pe1 pe2 pe3 rest hauth
    simp [pseudonymsysIssueCredential, Message.getSchnorrProofRandomData,
      Message.getBigint, Message.getDoubleBigint,
      issuerGetAuthenticationChallenge, issuerVerifyAuthentication, hauth,
      issuerGetEqualityProofData]

theorem roleError_message_not_terminal_witness :
    ((fun _ _ _ _ _ _ => false : Nat → Nat → Nat → Nat → Nat → Nat → Bool)
        0 0 2 9 1 1 = false) ∧
    pseudonymsysGenerateNym
        ⟨⟨23, 2, 11⟩, (0, 0), fun _ _ => (3, 6), fun _ => (1, 1)⟩
        (fun _ _ _ _ _ _ => false) 3
        { content := .nymGenProofRandomData [8] [2] [9] [18] [4] [12] [1] [1] }
        [{ content := .schnorrProofData [2] }]
      = .ok [{ content := .pedersenDecommitment [],
               protocolError := "INVALID_CA_SIGNATURE" },
             { content := .status true }] ∧
    ((powMod 2 1 23 == (1 * powMod 1 4 23) % 23) = false) ∧
    pseudonymsysIssueCredential
        ⟨⟨23, 2, 11⟩, (0, 0), fun _ _ => (3, 6), fun _ => (1, 1)⟩
        4 3 4 7
        { content := .schnorrProofRandomData [1] [2] [1] }
        [{ content := .bigInt [1] }, { content := .doubleBigInt [2] [5] }]
      = .ok [{ content := .bigInt [4] },
             { content := .issueProofRandomData [] [] [] [] [] [],
               protocolError := "AUTH_FAILED" },
             { content := .doubleBigInt [6] [8] }] :=
  ⟨rfl,
   roleError_message_not_terminal.1 _ _ _ _ _ _ _ _ _ _ _ _ _ _ _ rfl,
   by decide,
   roleError_message_not_terminal.2 _ _ _ _ _ _ _ _ _ _ _ _ _ _ _ (by decide)⟩

/-- C4: in round 3 of `PseudonymsysIssueCredential` (with round-2
authentication succeeding so that the nonces `gamma1, gamma2` are stored),
for any received challenge pair `(c1, c2)` the final `DoubleBigInt` response
carries exactly `(z1, z2) = (gamma1 + c1·s1 mod q, gamma2 + c2·s2 mod q)`
for the organization secrets `(s1, s2)` of org1. -/
theorem issueCredential_round3_response
    (cfg : Config) (c r1 gamma1 gamma2 : Nat)
    (xb ab bb zb c1b c2b : List Nat) (pe1 pe2 pe3 : String)
    (rest : List Message)
    (hauth : (powMod (setBytes ab) (setBytes zb) cfg.dlog.p
        == (setBytes xb * powMod (setBytes bb) c cfg.dlog.p) % cfg.dlog.p)
        = true) :
    pseudonymsysIssueCredential cfg c r1 gamma1 gamma2
        { content := .schnorrProofRandomData xb ab bb, protocolError := pe1 }
        ({ content := .bigInt zb, protocolError := pe2 } ::
         { content := .doubleBigInt c1b c2b, protocolError := pe3 } :: rest)
      = .ok [{ content := .bigInt (bytes c) },
             { content := .issueProofRandomData
                 (bytes (powMod cfg.dlog.g gamma1 cfg.dlog.p))
                 (bytes (powMod (powMod cfg.dlog.g
                     (cfg.orgSecrets ("org1") ("dlog")).1 cfg.dlog.p)
                   gamma1 cfg.dlog.p))
                 (bytes (powMod cfg.dlog.g gamma2 cfg.dlog.p))
                 (bytes (powMod (powMod cfg.dlog.g
                     (cfg.orgSecrets ("org1") ("dlog")).2 cfg.dlog.p)
                   gamma2 cfg.dlog.p))
                 (bytes ((powMod (setBytes ab)
                     (cfg.orgSecrets ("org1") ("dlog")).2 cfg.dlog.p *
                   powMod cfg.dlog.g r1 cfg.dlog.p) % cfg.dlog.p))
                 (bytes ((powMod (setBytes bb)
                     (cfg.orgSecrets ("org1") ("dlog")).2 cfg.dlog.p *
                   powMod (powMod cfg.dlog.g
                       (cfg.orgSecrets ("org1") ("dlog")).1 cfg.dlog.p)
                     r1 cfg.dlog.p) % cfg.dlog.p)) },
             { content := .doubleBigInt
                 (bytes ((gamma1 + setBytes c1b *
                   (cfg.orgSecrets ("org1") ("dlog")).1) % cfg.dlog.q))
                 (bytes ((gamma2 + setBytes c2b *
                   (cfg.orgSecrets ("org1") ("dlog")).2) % cfg.dlog.q)) }] := by
  simp [pseudonymsysIssueCredential, Message.getSchnorrProofRandomData,
    Message.getBigint, Message.getDoubleBigint,
    issuerGetAuthenticationChallenge, issuerVerifyAuthentication, hauth,
    issuerGetEqualityProofData]

/-- C4 witness: the concrete instance from the spec — stored `gamma1 = 4,
gamma2 = 7`, secrets `s1 = 3, s2 = 6`, `q = 11`, challenges
`(c1, c2) = (2, 5)` — yields response `(z1, z2) = (10, 4)`. -/
theorem issueCredential_round3_response_witness :
    ((powMod 1 1 23 == (1 * powMod 1 5 23) % 23) = true) ∧
    pseudonymsysIssueCredential
        ⟨⟨23, 2, 11⟩, (0, 0), fun _ _ => (3, 6), fun _ => (1, 1)⟩
        5 3 4 7
        { content := .schnorrProofRandomData [1] [1] [1] }
        [{ content := .bigInt [1] }, { content := .doubleBigInt [2] [5] }]
      = .ok [{ content := .bigInt [5] },
             { content := .issueProofRandomData [16] [2] [13] [6] [8] [6] },
             { content := .doubleBigInt [10] [4] }] :=
  ⟨by decide,
   issueCredential_round3_response _ _ _ _ _ _ _ _ _ _ _ _ _ _ _ (by decide)⟩

/-- C5 counterexample: a concrete nymgen run receiving `z = 13 ≥ q = 11`.
The handler does not treat it as MALFORMED: no `protocol_error` is set, the
verification runs on the raw out-of-range value, and (since `g^13 = g^2` in
the order-11 group) the reply is `Status{success: true}`. -/
theorem outOfRange_not_malformed_counterexample :
    pseudonymsysGenerateNym
        ⟨⟨23, 2, 11⟩, (0, 0), fun _ _ => (3, 6), fun _ => (1, 1)⟩
        (fun _ _ _ _ _ _ => true) 2
        { content := .nymGenProofRandomData [8] [2] [9] [18] [4] [12] [1] [1] }
        [{ content := .schnorrProofData [13] }]
      = .ok [{ content := .pedersenDecommitment [2] },
             { content := .status true }] ∧
    11 ≤ setBytes [13] ∧
    ({ content := .status true } : Message).protocolError = "" :=
  ⟨rfl, by decide, rfl⟩

/-- C5 amended: the handlers perform no range check on received exponents.
Even for `z ≥ q` the nymgen handler runs the verification on the raw value
and replies `Status{success = Verify(z)}` with `protocol_error` left empty;
it is never treated as MALFORMED. -/
theorem outOfRange_runs_verification
    (cfg : Config) (sigOk : Nat → Nat → Nat → Nat → Nat → Nat → Bool) (c : Nat)
    (x1b a1b b1b x2b a2b b2b rb sb zb : List Nat)
    (pe pe' : String) (rest : List Message)
    (hsig : sigOk cfg.caPubKey.1 cfg.caPubKey.2 (setBytes a1b) (setBytes b1b)
        (setBytes rb) (setBytes sb) = true)
    (_hz : cfg.dlog.q ≤ setBytes zb) :
    pseudonymsysGenerateNym cfg sigOk c
        { content := .nymGenProofRandomData x1b a1b b1b x2b a2b b2b rb sb,
          protocolError := pe }
        ({ content := .schnorrProofData zb, protocolError := pe' } :: rest)
      = .ok [{ content := .pedersenDecommitment (bytes c) },
             { content := .status (nymGenVerify cfg.dlog.p
                 ⟨setBytes a1b, setBytes b1b, setBytes a2b, setBytes b2b,
                  setBytes x1b, setBytes x2b, c⟩ (setBytes zb)),
               protocolError := "" }] := by
  simp [pseudonymsysGenerateNym, Message.getNymGenProofRandomData,
    Message.getSchnorrProofData, nymGenGetChallenge, hsig]

theorem outOfRange_runs_verification_witness :
    ((fun _ _ _ _ _ _ => true : Nat → Nat → Nat → Nat → Nat → Nat → Bool)
        0 0 2 9 1 1 = true) ∧
    11 ≤ setBytes [13] ∧
    pseudonymsysGenerateNym
        ⟨⟨23, 2, 11⟩, (0, 0), fun _ _ => (3, 6), fun _ => (1, 1)⟩
        (fun _ _ _ _ _ _ => true) 2
        { content := .nymGenProofRandomData [8] [2] [9] [18] [4] [12] [1] [1] }
        [{ content := .schnorrProofData [13] }]
      = .ok [{ content := .pedersenDecommitment [2] },
             { content := .status true, protocolError := "" }] :=
  ⟨rfl, by decide,
   outOfRange_runs_verification _ _ _ _ _ _ _ _ _ _ _ _ _ _ _ rfl (by decide)⟩

/-- C6 counterexample: a concrete nymgen run whose second incoming message is
a `Status` instead of the expected `SchnorrProofData`.  The payload accessor
yields nil, the handler dereferences it, and the run ends in a crash (Go
nil-pointer panic) — not in an error-done state of kind MALFORMED. -/
theorem variantMismatch_crashes_counterexample :
    pseudonymsysGenerateNym
        ⟨⟨23, 2, 11⟩, (0, 0), fun _ _ => (3, 6), fun _ => (1, 1)⟩
        (fun _ _ _ _ _ _ => true) 1
        { content := .nymGenProofRandomData [8] [2] [9] [18] [4] [12] [1] [1] }
        [{ content := .status true }]
      = .crash [{ content := .pedersenDecommitment [1] }] :=
  rfl

/-- C6 amended: on a message whose variant does not match the round's
expected one, the nil result of the payload accessor is dereferenced: the
handler run ends in a crash after the messages already sent, rather than
transitioning to a MALFORMED error-done state.  Shown for the nymgen `z`
round, the issuance `z` round, and the issuance challenge round. -/
theorem variantMismatch_crashes :
    (∀ (cfg : Config) (sigOk : Nat → Nat → Nat → Nat → Nat → Nat → Bool)
       (c : Nat) (x1b a1b b1b x2b a2b b2b rb sb : List Nat) (pe : String)
       (m : Message) (rest : List Message),
       sigOk cfg.caPubKey.1 cfg.caPubKey.2 (setBytes a1b) (setBytes b1b)
           (setBytes rb) (setBytes sb) = true →
       m.getSchnorrProofData = none →
       pseudonymsysGenerateNym cfg sigOk c
           { content := .nymGenProofRandomData x1b a1b b1b x2b a2b b2b rb sb,
             protocolError := pe }
           (m :: rest)
         = .crash [{ content := .pedersenDecommitment (bytes c) }]) ∧
    (∀ (cfg : Config) (c r1 gamma1 gamma2 : Nat) (xb ab bb : List Nat)
       (pe : String) (m : Message) (rest : List Message),
       m.getBigint = none →
       pseudonymsysIssueCredential cfg c r1 gamma1 gamma2
           { content := .schnorrProofRandomData xb ab bb, protocolError := pe }
           (m :: rest)
         = .crash [{ content := .bigInt (bytes c) }]) ∧
    (∀ (cfg : Config) (c r1 gamma1 gamma2 : Nat) (xb ab bb zb : List Nat)
       (pe pe' : String) (m : Message) (rest : List Message),
       (powMod (setBytes ab) (setBytes zb) cfg.dlog.p
          == (setBytes xb * powMod (setBytes bb) c cfg.dlog.p) % cfg.dlog.p)
         = false →
       m.getDoubleBigint = none →
       pseudonymsysIssueCredential cfg c r1 gamma1 gamma2
           { content := .schnorrProofRandomData xb ab bb, protocolError := pe }
           ({ content := .bigInt zb, protocolError := pe' } :: m :: rest)
         = .crash [{ content := .bigInt (bytes c) },
                   { content := .issueProofRandomData [] [] [] [] [] [],
                     protocolError := "AUTH_FAILED" }]) := by
  refine ⟨?_, ?_, ?_⟩
  · intro cfg sigOk c x1b a1b b1b x2b a2b b2b rb sb pe m rest hsig hm
    simp [pseudonymsysGenerateNym, Message.getNymGenProofRandomData,
      nymGenGetChallenge, hsig, hm]
  · intro cfg c r1 gamma1 gamma2 xb ab bb pe m rest hm
    simp [pseudonymsysIssueCredential, Message.getSchnorrProofRandomData,
      issuerGetAuthenticationChallenge, hm]
  · intro cfg c r1 gamma1 gamma2 xb ab bb zb pe pe' m rest hauth hm
    simp [pseudonymsysIssueCredential, Message.getSchnorrProofRandomData,
      Message.getBigint, issuerGetAuthenticationChallenge,
      issuerVerifyAuthentication, hauth, hm]

theorem variantMismatch_crashes_witness :
    ((fun _ _ _ _ _ _ => true : Nat → Nat → Nat → Nat → Nat → Nat → Bool)
        0 0 2 9 1 1 = true) ∧
    (({ content := .status true } : Message).getSchnorrProofData = none) ∧
    pseudonymsysGenerateNym
        ⟨⟨23, 2, 11⟩, (0, 0), fun _ _ => (3, 6), fun _ => (1, 1)⟩
        (fun _ _ _ _ _ _ => true) 1
        { content := .nymGenProofRandomData [8] [2] [9] [18] [4] [12] [1] [1] }
        [{ content := .status true }]
      = .crash [{ content := .pedersenDecommitment [1] }] ∧
    (({ content := .status true } : Message).getBigint = none) ∧
    pseudonymsysIssueCredential
        ⟨⟨23, 2, 11⟩, (0, 0), fun _ _ => (3, 6), fun _ => (1, 1)⟩
        4 3 4 7
        { content := .schnorrProofRandomData [1] [2] [1] }
        [{ content := .status true }]
      = .crash [{ content := .bigInt [4] }] ∧
    ((powMod 2 1 23 == (1 * powMod 1 4 23) % 23) = false) ∧
    (({ content := .status true } : Message).getDoubleBigint = none) ∧
    pseudonymsysIssueCredential
        ⟨⟨23, 2, 11⟩, (0, 0), fun _ _ => (3, 6), fun _ => (1, 1)⟩
        4 3 4 7
        { content := .schnorrProofRandomData [1] [2] [1] }
        [{ content := .bigInt [1] }, { content := .status true }]
      = .crash [{ content := .bigInt [4] },
                { content := .issueProofRandomData [] [] [] [] [] [],
                  protocolError := "AUTH_FAILED" }] :=
  ⟨rfl, rfl,
   variantMismatch_crashes.1 _ _ _ _ _ _ _ _ _ _ _ _ _ _ rfl rfl,
   rfl,
   variantMismatch_crashes.2.1 _ _ _ _ _ _ _ _ _ _ _ rfl,
   by decide, rfl,
   variantMismatch_crashes.2.2 _ _ _ _ _ _ _ _ _ _ _ _ _ (by decide) rfl⟩

/-- C7: round-trip of the big-endian big-integer encoding.  Unmarshal after
marshal (`SetBytes` after `Bytes`) recovers every non-negative integer, and
marshal after unmarshal recovers every byte string (with in-range bytes) up
to stripping of leading zero bytes. -/
theorem bigint_encoding_roundtrip :
    (∀ n : Nat, setBytes (bytes n) = n) ∧
    (∀ b : List Nat, (∀ d ∈ b, d < 256) →
       bytes (setBytes b) = b.dropWhile (· == 0)) :=
  ⟨setBytes_bytes, bytes_setBytes⟩

theorem bigint_encoding_roundtrip_witness :
    setBytes (bytes 300) = 300 ∧
    (∀ d ∈ [0, 0, 7, 255], d < 256) ∧
    bytes (setBytes [0, 0, 7, 255]) = [7, 255] :=
  ⟨bigint_encoding_roundtrip.1 300, by decide,
   bigint_encoding_roundtrip.2 [0, 0, 7, 255] (by decide)⟩

/-- C8: verification is deterministic — `Verify` of the nymgen role and
`VerifyAuthentication` of the credential-verifier role are pure functions of
the group parameters, the stored session state, the received response `z`
and (for transfer) the credential and issuer public keys: two runs on
identical inputs give identical outcomes. -/
theorem verification_deterministic :
    (∀ (p p' : Nat) (st st' : NymGenSession) (z z' : Nat),
       p = p' → st = st' → z = z' →
       nymGenVerify p st z = nymGenVerify p' st' z') ∧
    (∀ (H H' : List Nat → Nat) (dl dl' : DLog) (st st' : VerifierSession)
       (z z' : Nat) (cred cred' : Credential) (h1 h1' h2 h2' : Nat),
       H = H' → dl = dl' → st = st' → z = z' → cred = cred' →
       h1 = h1' → h2 = h2' →
       verifierVerifyAuthentication H dl st z cred h1 h2
         = verifierVerifyAuthentication H' dl' st' z' cred' h1' h2') := by
  constructor
  · intro p p' st st' z z' h1 h2 h3
    subst h1; subst h2; subst h3; rfl
  · intro H H' dl dl' st st' z z' cred cred' h1 h1' h2 h2' e1 e2 e3 e4 e5 e6 e7
    subst e1; subst e2; subst e3; subst e4; subst e5; subst e6; subst e7; rfl

theorem verification_deterministic_witness :
    (23 = 23) ∧
    nymGenVerify 23 ⟨2, 9, 4, 12, 8, 18, 2⟩ 13
      = nymGenVerify 23 ⟨2, 9, 4, 12, 8, 18, 2⟩ 13 ∧
    verifierVerifyAuthentication (fun _ => 0) ⟨23, 2, 11⟩ ⟨1, 1, 1, 1, 1, 1, 1⟩ 1
        ⟨1, 1, 1, 1, ⟨1, 1, 1, 1⟩, ⟨1, 1, 1, 1⟩⟩ 8 18
      = verifierVerifyAuthentication (fun _ => 0) ⟨23, 2, 11⟩ ⟨1, 1, 1, 1, 1, 1, 1⟩ 1
        ⟨1, 1, 1, 1, ⟨1, 1, 1, 1⟩, ⟨1, 1, 1, 1⟩⟩ 8 18 :=
  ⟨rfl,
   verification_deterministic.1 _ _ _ _ _ _ rfl rfl rfl,
   verification_deterministic.2 _ _ _ _ _ _ _ _ _ _ _ _ _ _ rfl rfl rfl rfl rfl rfl rfl⟩

/-- C9: the issuance and transfer handlers read the organization secrets
only at the fixed key org1 (independently of any client input), and the
transfer handler reads the organization public keys only at the request's
`org_name`: two configurations agreeing on those entries (and on the group)
make the handlers behave identically on all requests and tapes. -/
theorem org1_secrets_fixed :
    (∀ (cfg cfg' : Config), cfg.dlog = cfg'.dlog →
       cfg.orgSecrets ("org1") ("dlog") = cfg'.orgSecrets ("org1") ("dlog") →
       ∀ (c r1 gamma1 gamma2 : Nat) (req : Message) (tape : List Message),
         pseudonymsysIssueCredential cfg c r1 gamma1 gamma2 req tape
           = pseudonymsysIssueCredential cfg' c r1 gamma1 gamma2 req tape) ∧
    (∀ (cfg cfg' : Config), cfg.dlog = cfg'.dlog →
       ∀ (orgName : String), cfg.orgPubKeys orgName = cfg'.orgPubKeys orgName →
         ∀ (H : List Nat → Nat) (c : Nat) (x1b x2b nymAb nymBb : List Nat)
           (credOpt : Option PbCredential) (pe : String) (tape : List Message),
           pseudonymsysTransferCredential cfg H c
               { content := .transferCredentialData orgName x1b x2b nymAb nymBb credOpt,
                 protocolError := pe } tape
             = pseudonymsysTransferCredential cfg' H c
               { content := .transferCredentialData orgName x1b x2b nymAb nymBb credOpt,
                 protocolError := pe } tape) := by
  constructor
  · intro cfg cfg' hdl hsec c r1 gamma1 gamma2 req tape
    simp only [pseudonymsysIssueCredential, hdl, hsec]
  · intro cfg cfg' hdl orgName hpub H c x1b x2b nymAb nymBb credOpt pe tape
    simp only [pseudonymsysTransferCredential, Message.getTransferCredentialData,
      hdl, hpub]

theorem org1_secrets_fixed_witness :
    ((⟨⟨23, 2, 11⟩, (0, 0), fun _ _ => (3, 6), fun _ => (8, 18)⟩ : Config).dlog
       = (⟨⟨23, 2, 11⟩, (9, 9), fun n _ => if n = ("org1") then (3, 6) else (9, 9),
           fun n => if n = ("orgA") then (8, 18) else (7, 7)⟩ : Config).dlog) ∧
    ((⟨⟨23, 2, 11⟩, (0, 0), fun _ _ => (3, 6), fun _ => (8, 18)⟩ : Config).orgSecrets
        ("org1") ("dlog")
       = (⟨⟨23, 2, 11⟩, (9, 9), fun n _ => if n = ("org1") then (3, 6) else (9, 9),
           fun n => if n = ("orgA") then (8, 18) else (7, 7)⟩ : Config).orgSecrets
        ("org1") ("dlog")) ∧
    pseudonymsysIssueCredential
        ⟨⟨23, 2, 11⟩, (0, 0), fun _ _ => (3, 6), fun _ => (8, 18)⟩ 5 3 4 7
        { content := .schnorrProofRandomData [1] [1] [1] }
        [{ content := .bigInt [1] }, { content := .doubleBigInt [2] [5] }]
      = pseudonymsysIssueCredential
        ⟨⟨23, 2, 11⟩, (9, 9), fun n _ => if n = ("org1") then (3, 6) else (9, 9),
         fun n => if n = ("orgA") then (8, 18) else (7, 7)⟩ 5 3 4 7
        { content := .schnorrProofRandomData [1] [1] [1] }
        [{ content := .bigInt [1] }, { content := .doubleBigInt [2] [5] }] ∧
    ((⟨⟨23, 2, 11⟩, (0, 0), fun _ _ => (3, 6), fun _ => (8, 18)⟩ : Config).orgPubKeys
        ("orgA")
       = (⟨⟨23, 2, 11⟩, (9, 9), fun n _ => if n = ("org1") then (3, 6) else (9, 9),
           fun n => if n = ("orgA") then (8, 18) else (7, 7)⟩ : Config).orgPubKeys
        ("orgA")) ∧
    pseudonymsysTransferCredential
        ⟨⟨23, 2, 11⟩, (0, 0), fun _ _ => (3, 6), fun _ => (8, 18)⟩ (fun _ => 0) 2
        { content := .transferCredentialData ("orgA") [1] [1] [1] [1]
            (some ⟨[1], [1], [1], [1], ⟨[1], [1], [1], [1]⟩, ⟨[1], [1], [1], [1]⟩⟩) }
        [{ content := .bigInt [1] }]
      = pseudonymsysTransferCredential
        ⟨⟨23, 2, 11⟩, (9, 9), fun n _ => if n = ("org1") then (3, 6) else (9, 9),
         fun n => if n = ("orgA") then (8, 18) else (7, 7)⟩ (fun _ => 0) 2
        { content := .transferCredentialData ("orgA") [1] [1] [1] [1]
            (some ⟨[1], [1], [1], [1], ⟨[1], [1], [1], [1]⟩, ⟨[1], [1], [1], [1]⟩⟩) }
        [{ content := .bigInt [1] }] :=
  ⟨rfl, by decide,
   org1_secrets_fixed.1 _ _ rfl (by decide) _ _ _ _ _ _,
   by decide,
   org1_secrets_fixed.2 _ _ rfl _ (by decide) _ _ _ _ _ _ _ _ _⟩

/-- C10: byte-string fields of an expected-variant message are parsed as
non-negative big-endian integers with the empty (absent) field parsing to 0,
and no handler rejects a message of the expected variant for a missing or
empty field: whatever the field contents, all protocol rounds run to
completion and the full list of responses is sent. -/
theorem emptyFields_parse_to_zero_no_rejection :
    setBytes [] = 0 ∧
    (∀ (cfg : Config) (sigOk : Nat → Nat → Nat → Nat → Nat → Nat → Bool)
       (c : Nat) (x1b a1b b1b x2b a2b b2b rb sb zb : List Nat)
       (pe pe' : String) (rest : List Message),
       ∃ m1 m2, pseudonymsysGenerateNym cfg sigOk c
           { content := .nymGenProofRandomData x1b a1b b1b x2b a2b b2b rb sb,
             protocolError := pe }
           ({ content := .schnorrProofData zb, protocolError := pe' } :: rest)
         = .ok [m1, m2]) ∧
    (∀ (cfg : Config) (c r1 gamma1 gamma2 : Nat) (xb ab bb zb c1b c2b : List Nat)
       (pe1 pe2 pe3 : String) (rest : List Message),
       ∃ m1 m2 m3, pseudonymsysIssueCredential cfg c r1 gamma1 gamma2
           { content := .schnorrProofRandomData xb ab bb, protocolError := pe1 }
           ({ content := .bigInt zb, protocolError := pe2 } ::
            { content := .doubleBigInt c1b c2b, protocolError := pe3 } :: rest)
         = .ok [m1, m2, m3]) ∧
    (∀ (cfg : Config) (H : List Nat → Nat) (c : Nat) (orgName : String)
       (x1b x2b nymAb nymBb : List Nat) (pc : PbCredential) (zb : List Nat)
       (pe pe' : String) (rest : List Message),
       ∃ m1 m2, pseudonymsysTransferCredential cfg H c
           { content := .transferCredentialData orgName x1b x2b nymAb nymBb (some pc),
             protocolError := pe }
           ({ content := .bigInt zb, protocolError := pe' } :: rest)
         = .ok [m1, m2]) := by
  refine ⟨rfl, ?_, ?_, ?_⟩
  · intro cfg sigOk c x1b a1b b1b x2b a2b b2b rb sb zb pe pe' rest
    cases hs : sigOk cfg.caPubKey.1 cfg.caPubKey.2 (setBytes a1b) (setBytes b1b)
        (setBytes rb) (setBytes sb) <;>
      simp [pseudonymsysGenerateNym, Message.getNymGenProofRandomData,
        Message.getSchnorrProofData, nymGenGetChallenge, hs]
  · intro cfg c r1 gamma1 gamma2 xb ab bb zb c1b c2b pe1 pe2 pe3 rest
    cases ha : (powMod (setBytes ab) (setBytes zb) cfg.dlog.p
        == (setBytes xb * powMod (setBytes bb) c cfg.dlog.p) % cfg.dlog.p) <;>
      simp [pseudonymsysIssueCredential, Message.getSchnorrProofRandomData,
        Message.getBigint, Message.getDoubleBigint,
        issuerGetAuthenticationChallenge, issuerVerifyAuthentication, ha,
        issuerGetEqualityProofData]
  · intro cfg H c orgName x1b x2b nymAb nymBb pc zb pe pe' rest
    simp [pseudonymsysTransferCredential, Message.getTransferCredentialData,
      Message.getBigint, verifierGetAuthenticationChallenge]
